import Mathlib

/-!
Shallow embedding of `switchbot/__init__.py` (pySwitchbot): a driver for a
Switchbot BLE peripheral.  The transport (bluepy) is the external
collaborator; each attempt's transport behaviour is a parameter (`Beh`).
Pure helpers (command encoding, CRC32 password digest, notification
decoding) are translated directly; the mutable `Switchbot` object becomes
the explicit record `DriverState`, and `_sendCommand`'s recursive retry
becomes a recursive function over an `Int` retry counter, exactly as in the
source.
-/

set_option autoImplicit false

namespace Switchbot

/-- The `ActionStatus` Python enum (members and their byte values). -/
inductive ActionStatus where
  | complete
  | device_busy
  | device_wrong_mode
  | device_unreachable
  | device_encrypted
  | device_unencrypted
  | wrong_password
  | unable_resp
  | unable_connect
  deriving DecidableEq, Repr

/-- Byte value of each `ActionStatus` member, as declared in the enum. -/
def ActionStatus.val : ActionStatus → Nat
  | .complete => 1
  | .device_busy => 3
  | .device_wrong_mode => 5
  | .device_unreachable => 11
  | .device_encrypted => 7
  | .device_unencrypted => 8
  | .wrong_password => 9
  | .unable_resp => 254
  | .unable_connect => 255

/-- The Python enum constructor `ActionStatus(n)`: the member with value `n`,
or `none` when no member has that value (Python raises `ValueError`). -/
def actionStatusOfNat (n : Nat) : Option ActionStatus :=
  if n = 1 then some .complete
  else if n = 3 then some .device_busy
  else if n = 5 then some .device_wrong_mode
  else if n = 11 then some .device_unreachable
  else if n = 7 then some .device_encrypted
  else if n = 8 then some .device_unencrypted
  else if n = 9 then some .wrong_password
  else if n = 254 then some .unable_resp
  else if n = 255 then some .unable_connect
  else none

/-- `ActionStatus.msg` from the source: the fixed human-readable message. -/
def ActionStatus.msg : ActionStatus → String
  | .complete => "action complete"
  | .device_busy => "switchbot is busy"
  | .device_wrong_mode => "switchbot mode is wrong"
  | .device_unreachable => "switchbot is unreachable"
  | .device_encrypted => "switchbot is encrypted"
  | .device_unencrypted => "switchbot is unencrypted"
  | .wrong_password => "switchbot password is wrong"
  | .unable_resp => "switchbot does not respond"
  | .unable_connect => "switchbot unable to connect"

/-- One step of the standard CRC-32 (as computed by `binascii.crc32`):
fold one byte into the running remainder, reflected polynomial
`0xEDB88320`. -/
def crc32Byte (crc b : Nat) : Nat :=
  let c := Nat.xor crc (b % 256)
  (List.range 8).foldl
    (fun c _ => if c % 2 = 1 then Nat.xor (c >>> 1) 0xEDB88320 else c >>> 1) c

/-- `binascii.crc32` over a byte sequence: initial remainder `0xFFFFFFFF`,
final xor `0xFFFFFFFF`. -/
def crc32 (bs : List Nat) : Nat :=
  Nat.xor (bs.foldl crc32Byte 0xFFFFFFFF) 0xFFFFFFFF

/-- Python `'%x' % n`: lowercase hexadecimal, no leading-zero padding
(`0` renders as `"0"`). -/
def hexLower (n : Nat) : String :=
  String.mk (Nat.toDigits 16 n)

/-- `self._password_encoded` as computed by `Switchbot.__init__`: `None` for
an absent or empty password, else `'%x' % (binascii.crc32(password) &
0xffffffff)`.  The passphrase is modelled as its ASCII byte sequence. -/
def passwordEncodedOf (password : Option (List Nat)) : Option String :=
  match password with
  | none => none
  | some [] => none
  | some bs => some (hexLower (Nat.land (crc32 bs) 0xffffffff))

/-- A hex digit accepted by `binascii.a2b_hex` (0-9, a-f, A-F). -/
def isHexChar (c : Char) : Bool :=
  decide (48 ≤ c.toNat ∧ c.toNat ≤ 57) ||
  decide (97 ≤ c.toNat ∧ c.toNat ≤ 102) ||
  decide (65 ≤ c.toNat ∧ c.toNat ≤ 70)

/-- Whether `binascii.a2b_hex` accepts the string: even length, all hex
digits (otherwise it raises `binascii.Error`, a `ValueError`). -/
def hexValid (s : String) : Bool :=
  s.length % 2 = 0 && s.data.all isHexChar

/-- The mutable fields of the Python `Switchbot` object.  `device` is `true`
when `self._device` holds a peripheral handle, `false` when it is `None`. -/
structure DriverState where
  mac : String
  device : Bool
  retry_count : Int
  dual_mode : Bool
  inverse_mode : Bool
  battery_percent : Option Nat
  fw_ver : Option String
  cmd_response : Bool
  cmd_complete : Bool
  cmd_status : Option ActionStatus
  password_encoded : Option String
  deriving DecidableEq, Repr

/-- `Switchbot.__init__(mac, dual_mode, retry_count, password)`.  The
`dual_mode not in MODE_VALUES` check always passes here because the argument
is already a `Bool`; a non-boolean would raise `ValueError` at
construction. -/
def mkSwitchbot (mac : String) (dual_mode : Bool) (retry_count : Int)
    (password : Option (List Nat)) : DriverState :=
  { mac := mac
    device := false
    retry_count := retry_count
    dual_mode := dual_mode
    inverse_mode := false
    battery_percent := none
    fw_ver := none
    cmd_response := false
    cmd_complete := false
    cmd_status := none
    password_encoded := passwordEncodedOf password }

/-- `Switchbot._actionKey`: `5701 + key` unauthenticated, else
`5711 + digest + key`. -/
def actionKey (password_encoded : Option String) (key : String) : String :=
  match password_encoded with
  | none => "5701" ++ key
  | some d => "5711" ++ d ++ key

/-- `Switchbot._modeKey`.  Note the source appends no digest after the
`571364` password variant of the mode command. -/
def modeKey (password_encoded : Option String) (dual_mode inverse : Bool) :
    String :=
  match password_encoded with
  | none =>
    if dual_mode then "570364" ++ "1" ++ (if inverse then "1" else "0")
    else "570364" ++ "00"
  | some _ =>
    if dual_mode then "571364" ++ "1" ++ (if inverse then "1" else "0")
    else "571364" ++ "00"

/-- `Switchbot._infoKey`: `5702 + key` unauthenticated, else
`5712 + digest + key`. -/
def infoKey (password_encoded : Option String) (key : String) : String :=
  match password_encoded with
  | none => "5702" ++ key
  | some d => "5712" ++ d ++ key

/-- The command passed to `_sendCommand` (`cmd` code together with its
`key` / `dual_mode` / `inverse` arguments). -/
inductive Cmd where
  | action (key : String)
  | mode (dual_mode inverse : Bool)
  | info (key : String)
  deriving DecidableEq, Repr

/-- Whether the command is `CMD_INFO` (selects `InfoNotificationDelegate`
instead of `ActionOrModeNotificationDelegate`). -/
def Cmd.isInfo : Cmd → Bool
  | .info _ => true
  | _ => false

/-- The `command` local of `_sendCommand`: the encoded hex payload. -/
def encodeCmd (cmd : Cmd) (password_encoded : Option String) : String :=
  match cmd with
  | .action key => actionKey password_encoded key
  | .mode d i => modeKey password_encoded d i
  | .info key => infoKey password_encoded key

/-- Python exceptions that can travel through an attempt.  `btle` is
`bluepy.btle.BTLEException`; `valueError n` is the `ValueError` raised by
`ActionStatus(n)` on an unknown byte; `indexError` is raised by `data[i]`
on a too-short frame; `binasciiError` is raised by `a2b_hex` on a
malformed hex payload. -/
inductive PyExc where
  | btle
  | valueError (n : Nat)
  | indexError
  | binasciiError
  deriving DecidableEq, Repr

/-- `ActionOrModeNotificationDelegate.handleNotification`.  Returns the
driver state after whatever field assignments happened, together with the
exception that escaped the handler, if any. -/
def actionOrModeHandle (data : List Nat) (s : DriverState) :
    DriverState × Option PyExc :=
  let s := { s with cmd_response := true }
  match data.get? 0 with
  | none => (s, some .indexError)
  | some b0 =>
    match actionStatusOfNat b0 with
    | none => (s, some (.valueError b0))
    | some st =>
      if st ≠ ActionStatus.complete then
        if st = ActionStatus.device_wrong_mode then
          match data.get? 1 with
          | none => (s, some .indexError)
          | some b1 =>
            if b1 = 0xff then ({ s with cmd_complete := true }, none)
            else ({ s with cmd_complete := false, cmd_status := some st }, none)
        else ({ s with cmd_complete := false, cmd_status := some st }, none)
      else ({ s with cmd_complete := true }, none)

/-- Python `'{:3.1f}'.format(x / 10.0)` for a byte `x` (0-255): the decimal
value `x / 10` rendered with one fractional digit.  For every byte this
float format yields exactly the decimal digits (the quotient is never long
enough to engage the minimum-width padding, and rounding the nearest double
of `x / 10` to one decimal place recovers `x / 10` exactly). -/
def fwFormat (x : Nat) : String :=
  toString (x / 10) ++ "." ++ toString (x % 10)

/-- `InfoNotificationDelegate.handleNotification`.  On a `complete` status
the handler reads `data[1]`, `data[9]`, `data[2]` into locals before any
driver field is assigned, so a short frame raises `IndexError` with the
info fields untouched (but `_cmd_complete` already set). -/
def infoHandle (data : List Nat) (s : DriverState) :
    DriverState × Option PyExc :=
  let s := { s with cmd_response := true }
  match data.get? 0 with
  | none => (s, some .indexError)
  | some b0 =>
    match actionStatusOfNat b0 with
    | none => (s, some (.valueError b0))
    | some st =>
      if st ≠ ActionStatus.complete then
        ({ s with cmd_complete := false, cmd_status := some st }, none)
      else
        let s := { s with cmd_complete := true }
        match data.get? 1 with
        | none => (s, some .indexError)
        | some b1 =>
          match data.get? 9 with
          | none => (s, some .indexError)
          | some b9 =>
            match data.get? 2 with
            | none => (s, some .indexError)
            | some b2 =>
              ({ s with
                  battery_percent := some b1
                  dual_mode := (Nat.land b9 16) != 0
                  inverse_mode := (Nat.land b9 1) != 0
                  fw_ver := some (fwFormat b2) }, none)

/-- What the transport does during the write/await phase of one attempt:
the first I/O call raises `BTLEException`, or no notification arrives
within the wait window, or exactly one notification frame is delivered. -/
inductive IoBeh where
  | btleError
  | timeout
  | notified (data : List Nat)
  deriving DecidableEq, Repr

/-- The transport's behaviour for one attempt: whether `Peripheral(...)`
succeeds, what the I/O phase does, and whether `disconnect()` itself raises
(`_disconnect` catches that; it must not affect anything observable). -/
structure Beh where
  connectOk : Bool
  io : IoBeh
  disconnectRaises : Bool
  deriving DecidableEq, Repr

/-- Observable transport events of a run (used to state "no transport
interaction" and the attempt/backoff schedule). -/
inductive Ev where
  | connect
  | connectFail
  | enableNotify
  | write (payload : String)
  | btleError
  | waitTimeout
  | notified (data : List Nat)
  | settle
  | disconnect
  | backoffMs (ms : Nat)
  deriving DecidableEq, Repr

/-- Result of the `try/except/finally` body of one `_sendCommand` attempt:
the state after `_disconnect`, an exception that escaped the attempt
(never `BTLEException` — those are caught), the `exception` local flag,
and the transport events. -/
structure AttemptResult where
  state : DriverState
  raised : Option PyExc
  excFlag : Bool
  trace : List Ev
  deriving Repr

/-- One attempt of `_sendCommand`: `_connect`, then `_getInfo` or
`_doActionOrMode` (enable notifications on handle 0014, `_writeKey` the
payload via `a2b_hex`, wait for a notification, settle 1 s), with
`except BTLEException` setting the `exception` flag and
`finally: self._disconnect()` always clearing the device handle. -/
def runAttempt (cmd : Cmd) (command : String) (b : Beh) (s : DriverState) :
    AttemptResult :=
  if !s.device && !b.connectOk then
    { state := { s with device := false }, raised := none, excFlag := true,
      trace := [.connectFail, .disconnect] }
  else
    let tr0 : List Ev := if s.device then [] else [.connect]
    let s1 := { s with device := true }
    match b.io with
    | .btleError =>
      { state := { s1 with device := false }, raised := none, excFlag := true,
        trace := tr0 ++ [.btleError, .disconnect] }
    | .timeout =>
      if hexValid command then
        { state := { s1 with device := false }, raised := none,
          excFlag := false,
          trace := tr0 ++ [.enableNotify, .write command, .waitTimeout,
                           .settle, .disconnect] }
      else
        { state := { s1 with device := false }, raised := some .binasciiError,
          excFlag := false, trace := tr0 ++ [.enableNotify, .disconnect] }
    | .notified data =>
      if hexValid command then
        let h := if cmd.isInfo then infoHandle data s1
                 else actionOrModeHandle data s1
        match h.2 with
        | some e =>
          { state := { h.1 with device := false }, raised := some e,
            excFlag := false,
            trace := tr0 ++ [.enableNotify, .write command, .notified data,
                             .disconnect] }
        | none =>
          { state := { h.1 with device := false }, raised := none,
            excFlag := false,
            trace := tr0 ++ [.enableNotify, .write command, .notified data,
                             .settle, .disconnect] }
      else
        { state := { s1 with device := false }, raised := some .binasciiError,
          excFlag := false, trace := tr0 ++ [.enableNotify, .disconnect] }

/-- The terminal log emitted when retries are exhausted without a transport
exception: either the recorded device status (`_cmd_status.msg()`), or the
distinct "no response" report when no notification ever arrived. -/
inductive LogMsg where
  | statusMsg (st : Option ActionStatus)
  | noResponseMsg
  deriving DecidableEq, Repr

/-- Result of a full `_sendCommand` retry cycle (or of a public operation):
the uncaught exception if one propagated, the boolean return value, the
final driver state, the transport events, the number of attempts made, and
the terminal failure log, if any. -/
structure SendResult where
  raised : Option PyExc
  retval : Bool
  state : DriverState
  trace : List Ev
  attempts : Nat
  finalLog : Option LogMsg
  deriving Repr

/-- The flag resets at the top of every `_sendCommand` call. -/
def resetFlags (s : DriverState) : DriverState :=
  { s with cmd_response := false, cmd_complete := false, cmd_status := none }

/-- `DEFAULT_RETRY_TIMEOUT = .2` seconds, in milliseconds. -/
def DEFAULT_RETRY_TIMEOUT_MS : Nat := 200

/-- `Switchbot._sendCommand(cmd, retry, ...)`: decrement `retry`, reset the
flags, encode the command, run one attempt, return `True` on
`_cmd_complete`, otherwise sleep the fixed backoff and recurse while
`retry >= 0`, else log the distinguished failure and return
`_cmd_complete` (i.e. `False`).  `behs k` is the transport behaviour of
attempt `k`. -/
def sendCommand (cmd : Cmd) (retry : Int) (behs : Nat → Beh) (k : Nat)
    (s : DriverState) : SendResult :=
  let s0 := resetFlags s
  let command := encodeCmd cmd s0.password_encoded
  let a := runAttempt cmd command (behs k) s0
  match a.raised with
  | some e =>
    { raised := some e, retval := false, state := a.state, trace := a.trace,
      attempts := 1, finalLog := none }
  | none =>
    if a.state.cmd_complete then
      { raised := none, retval := true, state := a.state, trace := a.trace,
        attempts := 1, finalLog := none }
    else if h : 0 ≤ retry - 1 then
      let rest := sendCommand cmd (retry - 1) behs (k + 1) a.state
      { raised := rest.raised, retval := rest.retval, state := rest.state,
        trace := a.trace ++ .backoffMs DEFAULT_RETRY_TIMEOUT_MS :: rest.trace,
        attempts := 1 + rest.attempts, finalLog := rest.finalLog }
    else
      { raised := none, retval := a.state.cmd_complete, state := a.state,
        trace := a.trace, attempts := 1,
        finalLog :=
          if a.excFlag then none
          else if a.state.cmd_response then some (.statusMsg a.state.cmd_status)
          else some .noResponseMsg }
  termination_by retry.toNat
  decreasing_by omega

/-- A `SendResult` for a guard failure: `False` returned before any
transport interaction. -/
def guardFail (s : DriverState) : SendResult :=
  { raised := none, retval := false, state := s, trace := [], attempts := 0,
    finalLog := none }

/-- `Switchbot.turn_on`: guarded by `self._dual_mode`. -/
def turn_on (behs : Nat → Beh) (s : DriverState) : SendResult :=
  if !s.dual_mode then guardFail s
  else sendCommand (.action "01") s.retry_count behs 0 s

/-- `Switchbot.turn_off`: guarded by `self._dual_mode`. -/
def turn_off (behs : Nat → Beh) (s : DriverState) : SendResult :=
  if !s.dual_mode then guardFail s
  else sendCommand (.action "02") s.retry_count behs 0 s

/-- `Switchbot.press`: guarded by `not self._dual_mode`. -/
def press (behs : Nat → Beh) (s : DriverState) : SendResult :=
  if s.dual_mode then guardFail s
  else sendCommand (.action "") s.retry_count behs 0 s

/-- `Switchbot.set_mode(dual_mode, inverse)`.  The membership validation
always passes here because the arguments are already `Bool`; non-boolean
arguments raise `ValueError` at call time. -/
def set_mode (dual_mode inverse : Bool) (behs : Nat → Beh)
    (s : DriverState) : SendResult :=
  sendCommand (.mode dual_mode inverse) s.retry_count behs 0 s

/-- `Switchbot.get_settings`. -/
def get_settings (behs : Nat → Beh) (s : DriverState) : SendResult :=
  sendCommand (.info "") s.retry_count behs 0 s

/-- `Switchbot.is_dual_mode`. -/
def is_dual_mode (s : DriverState) : Bool := s.dual_mode

/-- `Switchbot.is_inverse_mode`. -/
def is_inverse_mode (s : DriverState) : Bool := s.inverse_mode

/-- `Switchbot.get_battery` (annotated `int` but returns `None` until an
Info exchange succeeds). -/
def get_battery (s : DriverState) : Option Nat := s.battery_percent

/-- `Switchbot.get_fw_ver` (annotated `str` but returns `None` until an
Info exchange succeeds). -/
def get_fw_ver (s : DriverState) : Option String := s.fw_ver

/-- The five public command operations. -/
inductive PublicOp where
  | turnOn
  | turnOff
  | press
  | setMode (dual_mode inverse : Bool)
  | getSettings
  deriving DecidableEq, Repr

/-- Dispatch a public operation. -/
def runOp : PublicOp → (Nat → Beh) → DriverState → SendResult
  | .turnOn, behs, s => turn_on behs s
  | .turnOff, behs, s => turn_off behs s
  | .press, behs, s => press behs s
  | .setMode d i, behs, s => set_mode d i behs s
  | .getSettings, behs, s => get_settings behs s

/-- The four DeviceState fields written only by a successful Info
exchange agree between two driver states. -/
def sameInfoFields (a b : DriverState) : Prop :=
  a.battery_percent = b.battery_percent ∧ a.fw_ver = b.fw_ver ∧
  a.dual_mode = b.dual_mode ∧ a.inverse_mode = b.inverse_mode

/-- Transport events of one attempt against a transport that times out. -/
def timeoutAttemptTr (c : String) : List Ev :=
  [.connect, .enableNotify, .write c, .waitTimeout, .settle, .disconnect]

/-- Transport events of a whole retry cycle against a transport that always
times out, with `n` additional attempts after the first, each separated by
the fixed 200 ms backoff. -/
def timeoutRunTr (c : String) : Nat → List Ev
  | 0 => timeoutAttemptTr c
  | n + 1 =>
    timeoutAttemptTr c ++ .backoffMs DEFAULT_RETRY_TIMEOUT_MS ::
      timeoutRunTr c n

/-- One public-operation call together with the transport behaviour it
meets. -/
structure Invocation where
  op : PublicOp
  behs : Nat → Beh

/-- Run a sequence of public operations, threading the driver state. -/
def runOps : List Invocation → DriverState → DriverState
  | [], s => s
  | iv :: rest, s => runOps rest (runOp iv.op iv.behs s).state

/-- Along the run, no `get_settings` call succeeds (returns `True` without
raising). -/
def noSuccessfulInfoRun : List Invocation → DriverState → Prop
  | [], _ => True
  | iv :: rest, s =>
    (iv.op = .getSettings →
      ¬((runOp iv.op iv.behs s).raised = none ∧
        (runOp iv.op iv.behs s).retval = true)) ∧
    noSuccessfulInfoRun rest (runOp iv.op iv.behs s).state

/-! ### Helper lemmas -/

theorem sameInfoFields_refl (s : DriverState) : sameInfoFields s s :=
  ⟨rfl, rfl, rfl, rfl⟩

theorem sameInfoFields_trans {a b c : DriverState} (h1 : sameInfoFields a b)
    (h2 : sameInfoFields b c) : sameInfoFields a c := by
  obtain ⟨x1, x2, x3, x4⟩ := h1
  obtain ⟨y1, y2, y3, y4⟩ := h2
  exact ⟨x1.trans y1, x2.trans y2, x3.trans y3, x4.trans y4⟩

/-- The Action/Mode delegate only writes the `_cmd_*` flags: it leaves the
info fields and the device handle alone, and the only exceptions it can
raise are decode failures, never `BTLEException`. -/
theorem actionOrModeHandle_frame (data : List Nat) (s : DriverState) :
    sameInfoFields (actionOrModeHandle data s).1 s ∧
    (actionOrModeHandle data s).1.device = s.device ∧
    (actionOrModeHandle data s).2 ≠ some PyExc.btle := by
  unfold actionOrModeHandle
  repeat' split
  all_goals simp [sameInfoFields]

/-- The Info delegate never raises `BTLEException`, leaves the device
handle alone, and either reports a fully decoded `complete` frame without
raising or leaves the info fields unchanged. -/
theorem infoHandle_frame (data : List Nat) (s : DriverState) :
    (infoHandle data s).1.device = s.device ∧
    (infoHandle data s).2 ≠ some PyExc.btle ∧
    ((infoHandle data s).2 = none ∧ (infoHandle data s).1.cmd_complete = true ∨
      sameInfoFields (infoHandle data s).1 s) := by
  unfold infoHandle
  repeat' split
  all_goals simp [sameInfoFields]

/-- One attempt always ends with the device handle cleared (the `finally`
in `_sendCommand` always runs `_disconnect`), never lets `BTLEException`
escape, leaves the info fields alone for Action/Mode commands, and for
Info commands either decodes a `complete` frame or leaves the info fields
alone. -/
theorem runAttempt_frame (cmd : Cmd) (command : String) (b : Beh)
    (s : DriverState) :
    (runAttempt cmd command b s).state.device = false ∧
    (runAttempt cmd command b s).raised ≠ some PyExc.btle ∧
    (cmd.isInfo = false →
      sameInfoFields (runAttempt cmd command b s).state s) ∧
    (cmd.isInfo = true →
      ((runAttempt cmd command b s).raised = none ∧
        (runAttempt cmd command b s).state.cmd_complete = true) ∨
      sameInfoFields (runAttempt cmd command b s).state s) := by
  unfold runAttempt
  split
  · simp [sameInfoFields]
  · cases hio : b.io with
    | btleError => simp [sameInfoFields]
    | timeout =>
      by_cases hx : hexValid command = true <;> simp [hx, sameInfoFields]
    | notified data =>
      by_cases hx : hexValid command = true <;> simp only [hx]
      · cases hi : cmd.isInfo <;>
          simp only [hi, Bool.false_eq_true, if_true, if_false]
        · obtain ⟨f1, f2, f3⟩ :=
            actionOrModeHandle_frame data { s with device := true }
          cases hh : (actionOrModeHandle data { s with device := true }).2 with
          | none =>
            rw [hh] at f3
            simp_all [sameInfoFields]
          | some e =>
            rw [hh] at f3
            simp_all [sameInfoFields]
        · obtain ⟨f1, f2, f3⟩ := infoHandle_frame data { s with device := true }
          cases hh : (infoHandle data { s with device := true }).2 with
          | none =>
            rw [hh] at f2 f3
            rcases f3 with ⟨h1, h2⟩ | hsame
            · simp_all [sameInfoFields]
            · simp_all [sameInfoFields]
          | some e =>
            rw [hh] at f2 f3
            rcases f3 with ⟨h1, h2⟩ | hsame
            · simp_all
            · simp_all [sameInfoFields]
      · simp [sameInfoFields]

theorem resetFlags_same (s : DriverState) : sameInfoFields (resetFlags s) s :=
  ⟨rfl, rfl, rfl, rfl⟩

/-- Master frame lemma for a whole retry cycle: the device handle ends
cleared, `BTLEException` never escapes, Action/Mode commands never touch
the info fields, and an Info command either succeeds or leaves the info
fields unchanged. -/
theorem sendCommand_frame (cmd : Cmd) : ∀ (n : Nat) (retry : Int),
    retry.toNat = n → ∀ (behs : Nat → Beh) (k : Nat) (s : DriverState),
    (sendCommand cmd retry behs k s).state.device = false ∧
    (sendCommand cmd retry behs k s).raised ≠ some PyExc.btle ∧
    (cmd.isInfo = false →
      sameInfoFields (sendCommand cmd retry behs k s).state s) ∧
    (cmd.isInfo = true →
      ((sendCommand cmd retry behs k s).raised = none ∧
        (sendCommand cmd retry behs k s).retval = true) ∨
      sameInfoFields (sendCommand cmd retry behs k s).state s) := by
  intro n
  induction n using Nat.strong_induction_on with
  | _ n ih =>
    intro retry hn behs k s
    obtain ⟨f1, f2, f3, f4⟩ := runAttempt_frame cmd
      (encodeCmd cmd (resetFlags s).password_encoded) (behs k) (resetFlags s)
    rw [sendCommand.eq_def]
    simp only []
    cases hr : (runAttempt cmd (encodeCmd cmd (resetFlags s).password_encoded)
        (behs k) (resetFlags s)).raised with
    | some e =>
      rw [hr] at f2
      simp only [hr]
      refine ⟨f1, f2, ?_, ?_⟩
      · intro hi
        exact sameInfoFields_trans (f3 hi) (resetFlags_same s)
      · intro hi
        rcases f4 hi with ⟨h1, _⟩ | hsame
        · rw [hr] at h1; cases h1
        · exact Or.inr (sameInfoFields_trans hsame (resetFlags_same s))
    | none =>
      rw [hr] at f4
      simp only [hr]
      by_cases hc : (runAttempt cmd
          (encodeCmd cmd (resetFlags s).password_encoded)
          (behs k) (resetFlags s)).state.cmd_complete = true
      · simp only [hc, if_true]
        refine ⟨f1, ?_, ?_, ?_⟩
        · intro hcon; cases hcon
        · intro hi
          exact sameInfoFields_trans (f3 hi) (resetFlags_same s)
        · intro hi
          exact Or.inl ⟨by trivial, by trivial⟩
      · simp only [hc, if_false]
        by_cases hret : (0 : Int) ≤ retry - 1
        · simp only [dif_pos hret]
          have hlt : (retry - 1).toNat < n := by omega
          obtain ⟨g1, g2, g3, g4⟩ := ih (retry - 1).toNat hlt (retry - 1) rfl
            behs (k + 1)
            ((runAttempt cmd (encodeCmd cmd (resetFlags s).password_encoded)
              (behs k) (resetFlags s)).state)
          refine ⟨g1, g2, ?_, ?_⟩
          · intro hi
            exact sameInfoFields_trans (g3 hi)
              (sameInfoFields_trans (f3 hi) (resetFlags_same s))
          · intro hi
            rcases g4 hi with hok | hsame
            · exact Or.inl hok
            · rcases f4 hi with ⟨_, hcc⟩ | hsame2
              · exact absurd hcc hc
              · exact Or.inr (sameInfoFields_trans hsame
                  (sameInfoFields_trans hsame2 (resetFlags_same s)))
        · simp only [dif_neg hret]
          refine ⟨f1, ?_, ?_, ?_⟩
          · intro hcon; cases hcon
          · intro hi
            exact sameInfoFields_trans (f3 hi) (resetFlags_same s)
          · intro hi
            rcases f4 hi with ⟨_, hcc⟩ | hsame
            · exact absurd hcc hc
            · exact Or.inr (sameInfoFields_trans hsame (resetFlags_same s))

/-- A public operation that is not a successful `get_settings` leaves the
info fields (battery, firmware, dual-mode, inverse-mode) unchanged. -/
theorem runOp_preserves_info (op : PublicOp) (behs : Nat → Beh)
    (s : DriverState)
    (h : op = PublicOp.getSettings →
      ¬((runOp op behs s).raised = none ∧ (runOp op behs s).retval = true)) :
    sameInfoFields (runOp op behs s).state s := by
  cases op with
  | turnOn =>
    show sameInfoFields (turn_on behs s).state s
    unfold turn_on
    split
    · exact sameInfoFields_refl s
    · exact (sendCommand_frame (.action "01") s.retry_count.toNat
        s.retry_count rfl behs 0 s).2.2.1 rfl
  | turnOff =>
    show sameInfoFields (turn_off behs s).state s
    unfold turn_off
    split
    · exact sameInfoFields_refl s
    · exact (sendCommand_frame (.action "02") s.retry_count.toNat
        s.retry_count rfl behs 0 s).2.2.1 rfl
  | press =>
    show sameInfoFields (press behs s).state s
    unfold press
    split
    · exact sameInfoFields_refl s
    · exact (sendCommand_frame (.action "") s.retry_count.toNat
        s.retry_count rfl behs 0 s).2.2.1 rfl
  | setMode d i =>
    show sameInfoFields (set_mode d i behs s).state s
    exact (sendCommand_frame (.mode d i) s.retry_count.toNat
      s.retry_count rfl behs 0 s).2.2.1 rfl
  | getSettings =>
    rcases (sendCommand_frame (.info "") s.retry_count.toNat
        s.retry_count rfl behs 0 s).2.2.2 rfl with hok | hsame
    · exact absurd hok (h rfl)
    · exact hsame

/-- Unfolding lemma for one non-final `_sendCommand` attempt: when the
attempt raises nothing, the command is not complete, and retry credits
remain, the cycle sleeps the fixed backoff and recurses with one less
credit. -/
theorem sendCommand_retry_step (cmd : Cmd) (retry : Int) (behs : Nat → Beh)
    (k : Nat) (s : DriverState)
    (hr : (runAttempt cmd (encodeCmd cmd (resetFlags s).password_encoded)
      (behs k) (resetFlags s)).raised = none)
    (hc : (runAttempt cmd (encodeCmd cmd (resetFlags s).password_encoded)
      (behs k) (resetFlags s)).state.cmd_complete = false)
    (hpos : (0 : Int) ≤ retry - 1) :
    sendCommand cmd retry behs k s =
      { raised := (sendCommand cmd (retry - 1) behs (k + 1)
          (runAttempt cmd (encodeCmd cmd (resetFlags s).password_encoded)
            (behs k) (resetFlags s)).state).raised,
        retval := (sendCommand cmd (retry - 1) behs (k + 1)
          (runAttempt cmd (encodeCmd cmd (resetFlags s).password_encoded)
            (behs k) (resetFlags s)).state).retval,
        state := (sendCommand cmd (retry - 1) behs (k + 1)
          (runAttempt cmd (encodeCmd cmd (resetFlags s).password_encoded)
            (behs k) (resetFlags s)).state).state,
        trace := (runAttempt cmd (encodeCmd cmd (resetFlags s).password_encoded)
            (behs k) (resetFlags s)).trace ++
          Ev.backoffMs DEFAULT_RETRY_TIMEOUT_MS ::
            (sendCommand cmd (retry - 1) behs (k + 1)
              (runAttempt cmd (encodeCmd cmd (resetFlags s).password_encoded)
                (behs k) (resetFlags s)).state).trace,
        attempts := 1 + (sendCommand cmd (retry - 1) behs (k + 1)
          (runAttempt cmd (encodeCmd cmd (resetFlags s).password_encoded)
            (behs k) (resetFlags s)).state).attempts,
        finalLog := (sendCommand cmd (retry - 1) behs (k + 1)
          (runAttempt cmd (encodeCmd cmd (resetFlags s).password_encoded)
            (behs k) (resetFlags s)).state).finalLog } := by
  rw [sendCommand.eq_def]
  simp only []
  rw [hr]
  simp only [hc, Bool.false_eq_true, if_false, dif_pos hpos]

/-- Unfolding lemma for the final `_sendCommand` attempt: with no retry
credits left and no completion, the cycle logs the distinguished failure
and returns `False`. -/
theorem sendCommand_exhaust (cmd : Cmd) (retry : Int) (behs : Nat → Beh)
    (k : Nat) (s : DriverState)
    (hr : (runAttempt cmd (encodeCmd cmd (resetFlags s).password_encoded)
      (behs k) (resetFlags s)).raised = none)
    (hc : (runAttempt cmd (encodeCmd cmd (resetFlags s).password_encoded)
      (behs k) (resetFlags s)).state.cmd_complete = false)
    (hneg : ¬(0 : Int) ≤ retry - 1) :
    sendCommand cmd retry behs k s =
      { raised := none, retval := false,
        state := (runAttempt cmd (encodeCmd cmd (resetFlags s).password_encoded)
          (behs k) (resetFlags s)).state,
        trace := (runAttempt cmd (encodeCmd cmd (resetFlags s).password_encoded)
          (behs k) (resetFlags s)).trace,
        attempts := 1,
        finalLog :=
          if (runAttempt cmd (encodeCmd cmd (resetFlags s).password_encoded)
              (behs k) (resetFlags s)).excFlag then none
          else if (runAttempt cmd
              (encodeCmd cmd (resetFlags s).password_encoded)
              (behs k) (resetFlags s)).state.cmd_response then
            some (LogMsg.statusMsg (runAttempt cmd
              (encodeCmd cmd (resetFlags s).password_encoded)
              (behs k) (resetFlags s)).state.cmd_status)
          else some LogMsg.noResponseMsg } := by
  rw [sendCommand.eq_def]
  simp only []
  rw [hr]
  simp only [hc, Bool.false_eq_true, if_false, dif_neg hneg]

/-! ### Claim theorems -/

/-- C1 (counterexample): a notification frame whose status byte is `0`
makes `turn_on` raise `ValueError` (from `ActionStatus(0)`), even though
construction and call-time validation passed — the claim that public
operations never raise after validation is false on the code. -/
theorem C1_counterexample :
    (turn_on (fun _ => ⟨true, .notified [0], false⟩)
        (mkSwitchbot "ff:ff" true 3 none)).raised =
      some (PyExc.valueError 0) := by
  unfold turn_on
  rw [sendCommand.eq_def]
  decide

/-- C1 (amended): after call-time validation, transport failures never
escape as exceptions (`BTLEException` is always caught and turned into a
`False` return); the only exceptions a public operation can propagate are
protocol/format failures — an unrecognized notification status byte
(`ValueError`), a notification frame shorter than the decoded fields
require (`IndexError`), or an invalid hex command payload
(`binascii.Error`). -/
theorem C1_amended_exceptions (op : PublicOp) (behs : Nat → Beh)
    (s : DriverState) (e : PyExc)
    (he : (runOp op behs s).raised = some e) :
    e ≠ PyExc.btle ∧
    (e = PyExc.indexError ∨ e = PyExc.binasciiError ∨
      ∃ n, e = PyExc.valueError n) := by
  have hne : e ≠ PyExc.btle := by
    intro hbtle
    subst hbtle
    cases op with
    | turnOn =>
      revert he
      show (turn_on behs s).raised = some PyExc.btle → False
      unfold turn_on
      split
      · intro hcon; cases hcon
      · intro hcon
        exact (sendCommand_frame (.action "01") s.retry_count.toNat
          s.retry_count rfl behs 0 s).2.1 hcon
    | turnOff =>
      revert he
      show (turn_off behs s).raised = some PyExc.btle → False
      unfold turn_off
      split
      · intro hcon; cases hcon
      · intro hcon
        exact (sendCommand_frame (.action "02") s.retry_count.toNat
          s.retry_count rfl behs 0 s).2.1 hcon
    | press =>
      revert he
      show (press behs s).raised = some PyExc.btle → False
      unfold press
      split
      · intro hcon; cases hcon
      · intro hcon
        exact (sendCommand_frame (.action "") s.retry_count.toNat
          s.retry_count rfl behs 0 s).2.1 hcon
    | setMode d i =>
      exact (sendCommand_frame (.mode d i) s.retry_count.toNat
        s.retry_count rfl behs 0 s).2.1 he
    | getSettings =>
      exact (sendCommand_frame (.info "") s.retry_count.toNat
        s.retry_count rfl behs 0 s).2.1 he
  refine ⟨hne, ?_⟩
  cases e with
  | btle => exact absurd rfl hne
  | valueError n => exact Or.inr (Or.inr ⟨n, rfl⟩)
  | indexError => exact Or.inl rfl
  | binasciiError => exact Or.inr (Or.inl rfl)

/-- C1 (witness for the amended theorem), at the decode-failure input. -/
theorem C1_amended_exceptions_witness :
    PyExc.valueError 0 ≠ PyExc.btle ∧
    (PyExc.valueError 0 = PyExc.indexError ∨
      PyExc.valueError 0 = PyExc.binasciiError ∨
      ∃ n, PyExc.valueError 0 = PyExc.valueError n) :=
  C1_amended_exceptions PublicOp.turnOn
    (fun _ => ⟨true, .notified [0], false⟩) (mkSwitchbot "ff:ff" true 3 none)
    (PyExc.valueError 0)
    (by show (turn_on (fun _ => ⟨true, .notified [0], false⟩)
          (mkSwitchbot "ff:ff" true 3 none)).raised = some (PyExc.valueError 0)
        unfold turn_on
        rw [sendCommand.eq_def]
        decide)

/-- C2: with retry budget `N` and a transport that always times out,
exactly `N + 1` attempts are made, consecutive attempts are separated by
the fixed 200 ms backoff, the operation returns `False` without raising,
and the final outcome is the distinguished no-response report (the code
logs "no response" — `_cmd_status` itself remains unset on a pure
timeout). -/
theorem C2_retry_exhaustion (N : Nat) (cmd : Cmd) (dr : Bool)
    (behs : Nat → Beh) (k : Nat) (s : DriverState)
    (hb : ∀ j, behs j = ⟨true, IoBeh.timeout, dr⟩)
    (hdev : s.device = false)
    (hhex : hexValid (encodeCmd cmd s.password_encoded) = true) :
    (sendCommand cmd (N : Int) behs k s).attempts = N + 1 ∧
    (sendCommand cmd (N : Int) behs k s).retval = false ∧
    (sendCommand cmd (N : Int) behs k s).raised = none ∧
    (sendCommand cmd (N : Int) behs k s).finalLog =
      some LogMsg.noResponseMsg ∧
    (sendCommand cmd (N : Int) behs k s).state.cmd_status = none ∧
    (sendCommand cmd (N : Int) behs k s).state.cmd_response = false ∧
    (sendCommand cmd (N : Int) behs k s).trace =
      timeoutRunTr (encodeCmd cmd s.password_encoded) N := by
  have hrun : ∀ (c : String) (t : DriverState), t.device = false →
      hexValid c = true →
      runAttempt cmd c ⟨true, IoBeh.timeout, dr⟩ t =
        { state := { t with device := false }, raised := none,
          excFlag := false, trace := timeoutAttemptTr c } := by
    intro c t ht hc
    unfold runAttempt
    simp [ht, hc, timeoutAttemptTr]
  induction N generalizing k s with
  | zero =>
    have harun : runAttempt cmd (encodeCmd cmd (resetFlags s).password_encoded)
        (behs k) (resetFlags s) =
        { state := { resetFlags s with device := false }, raised := none,
          excFlag := false,
          trace := timeoutAttemptTr
            (encodeCmd cmd (resetFlags s).password_encoded) } := by
      rw [hb k]
      exact hrun _ (resetFlags s) hdev hhex
    rw [show ((0 : Nat) : Int) = (0 : Int) from rfl]
    rw [sendCommand_exhaust cmd 0 behs k s (by rw [harun]; try rfl)
      (by rw [harun]; try rfl) (by omega)]
    rw [harun]
    exact ⟨rfl, rfl, rfl, rfl, rfl, rfl, rfl⟩
  | succ N ih =>
    have harun : runAttempt cmd (encodeCmd cmd (resetFlags s).password_encoded)
        (behs k) (resetFlags s) =
        { state := { resetFlags s with device := false }, raised := none,
          excFlag := false,
          trace := timeoutAttemptTr
            (encodeCmd cmd (resetFlags s).password_encoded) } := by
      rw [hb k]
      exact hrun _ (resetFlags s) hdev hhex
    have hcast : ((N + 1 : Nat) : Int) - 1 = (N : Int) := by push_cast; ring
    rw [sendCommand_retry_step cmd ((N + 1 : Nat) : Int) behs k s
      (by rw [harun]; try rfl) (by rw [harun]; try rfl) (by push_cast; omega)]
    rw [harun, hcast]
    obtain ⟨g1, g2, g3, g4, g5, g6, g7⟩ :=
      ih (k + 1) { resetFlags s with device := false } rfl hhex
    refine ⟨?_, g2, g3, g4, g5, g6, ?_⟩
    · show 1 + (sendCommand cmd (N : Int) behs (k + 1)
        { resetFlags s with device := false }).attempts = N + 1 + 1
      omega
    · show timeoutAttemptTr (encodeCmd cmd (resetFlags s).password_encoded) ++
        Ev.backoffMs DEFAULT_RETRY_TIMEOUT_MS ::
          (sendCommand cmd (N : Int) behs (k + 1)
            { resetFlags s with device := false }).trace =
        timeoutRunTr (encodeCmd cmd s.password_encoded) (N + 1)
      rw [g7]
      rfl

/-- C2 (witness): budget 1, always-timeout transport, unauthenticated
action command — two attempts, one backoff, failure with the no-response
report. -/
theorem C2_retry_exhaustion_witness :
    (sendCommand (.action "01") ((1 : Nat) : Int)
      (fun _ => ⟨true, IoBeh.timeout, false⟩) 0
      (mkSwitchbot "ff:ff" true 3 none)).attempts = 1 + 1 ∧
    (sendCommand (.action "01") ((1 : Nat) : Int)
      (fun _ => ⟨true, IoBeh.timeout, false⟩) 0
      (mkSwitchbot "ff:ff" true 3 none)).retval = false ∧
    (sendCommand (.action "01") ((1 : Nat) : Int)
      (fun _ => ⟨true, IoBeh.timeout, false⟩) 0
      (mkSwitchbot "ff:ff" true 3 none)).raised = none ∧
    (sendCommand (.action "01") ((1 : Nat) : Int)
      (fun _ => ⟨true, IoBeh.timeout, false⟩) 0
      (mkSwitchbot "ff:ff" true 3 none)).finalLog =
      some LogMsg.noResponseMsg ∧
    (sendCommand (.action "01") ((1 : Nat) : Int)
      (fun _ => ⟨true, IoBeh.timeout, false⟩) 0
      (mkSwitchbot "ff:ff" true 3 none)).state.cmd_status = none ∧
    (sendCommand (.action "01") ((1 : Nat) : Int)
      (fun _ => ⟨true, IoBeh.timeout, false⟩) 0
      (mkSwitchbot "ff:ff" true 3 none)).state.cmd_response = false ∧
    (sendCommand (.action "01") ((1 : Nat) : Int)
      (fun _ => ⟨true, IoBeh.timeout, false⟩) 0
      (mkSwitchbot "ff:ff" true 3 none)).trace =
      timeoutRunTr (encodeCmd (.action "01")
        (mkSwitchbot "ff:ff" true 3 none).password_encoded) 1 :=
  C2_retry_exhaustion 1 (.action "01") false
    (fun _ => ⟨true, IoBeh.timeout, false⟩) 0
    (mkSwitchbot "ff:ff" true 3 none) (fun _ => rfl) rfl (by decide)

/-- C3 (counterexample): the Python `ActionStatus` enum also contains the
values 254 (`unable_resp`) and 255 (`unable_connect`), so a notification
frame whose status byte is 254 is NOT rejected as an unrecognized-status
decode failure: the delegate accepts it and records it as an ordinary
failure status, contradicting the claim that every byte outside
`\x7b1,3,5,7,8,9,11\x7d` is rejected. -/
theorem C3_counterexample :
    (actionOrModeHandle [254, 0] (mkSwitchbot "ff:ff" true 3 none)).2 =
      none ∧
    (actionOrModeHandle [254, 0]
        (mkSwitchbot "ff:ff" true 3 none)).1.cmd_status =
      some ActionStatus.unable_resp ∧
    (actionOrModeHandle [254, 0] (mkSwitchbot "ff:ff" true 3 none)).2 ≠
      some (PyExc.valueError 254) := by
  decide

/-- C3 (amended): bytes 1, 3, 5, 7, 8, 9, 11 map to their documented
statuses; bytes 254 and 255 additionally map to `unable_resp` and
`unable_connect` (they are accepted, treated as non-success failure
statuses); every byte outside those nine values is rejected with a
`ValueError` decode failure and is never treated as success. -/
theorem C3_amended_status_mapping (n : Nat) (rest : List Nat)
    (s : DriverState)
    (hn : n ∉ ([1, 3, 5, 7, 8, 9, 11, 254, 255] : List Nat)) :
    actionStatusOfNat 1 = some ActionStatus.complete ∧
    actionStatusOfNat 3 = some ActionStatus.device_busy ∧
    actionStatusOfNat 5 = some ActionStatus.device_wrong_mode ∧
    actionStatusOfNat 7 = some ActionStatus.device_encrypted ∧
    actionStatusOfNat 8 = some ActionStatus.device_unencrypted ∧
    actionStatusOfNat 9 = some ActionStatus.wrong_password ∧
    actionStatusOfNat 11 = some ActionStatus.device_unreachable ∧
    actionStatusOfNat 254 = some ActionStatus.unable_resp ∧
    actionStatusOfNat 255 = some ActionStatus.unable_connect ∧
    actionStatusOfNat n = none ∧
    (actionOrModeHandle (n :: rest) s).2 = some (PyExc.valueError n) ∧
    (actionOrModeHandle (n :: rest) s).1.cmd_complete = s.cmd_complete := by
  simp only [List.mem_cons, List.mem_singleton, not_or] at hn
  obtain ⟨h1, h3, h5, h7, h8, h9, h11, h254, h255⟩ := hn
  have hnone : actionStatusOfNat n = none := by
    simp [actionStatusOfNat, h1, h3, h5, h7, h8, h9, h11, h254, h255]
  refine ⟨rfl, rfl, rfl, rfl, rfl, rfl, rfl, rfl, rfl, hnone, ?_, ?_⟩
  · simp [actionOrModeHandle, hnone]
  · simp [actionOrModeHandle, hnone]

/-- C3 (witness for the amended theorem), at the unrecognized byte 2. -/
theorem C3_amended_status_mapping_witness :
    actionStatusOfNat 1 = some ActionStatus.complete ∧
    actionStatusOfNat 3 = some ActionStatus.device_busy ∧
    actionStatusOfNat 5 = some ActionStatus.device_wrong_mode ∧
    actionStatusOfNat 7 = some ActionStatus.device_encrypted ∧
    actionStatusOfNat 8 = some ActionStatus.device_unencrypted ∧
    actionStatusOfNat 9 = some ActionStatus.wrong_password ∧
    actionStatusOfNat 11 = some ActionStatus.device_unreachable ∧
    actionStatusOfNat 254 = some ActionStatus.unable_resp ∧
    actionStatusOfNat 255 = some ActionStatus.unable_connect ∧
    actionStatusOfNat 2 = none ∧
    (actionOrModeHandle [2] (mkSwitchbot "ff:ff" true 3 none)).2 =
      some (PyExc.valueError 2) ∧
    (actionOrModeHandle [2] (mkSwitchbot "ff:ff" true 3 none)).1.cmd_complete =
      (mkSwitchbot "ff:ff" true 3 none).cmd_complete :=
  C3_amended_status_mapping 2 [] (mkSwitchbot "ff:ff" true 3 none) (by decide)

/-- C4: for Action/Mode commands, status byte 5 (`device_wrong_mode`) with
byte 1 equal to `0xFF` sets `_cmd_complete` and makes the whole command
succeed in one attempt; status 5 with any other byte 1 records a failed
attempt with status `device_wrong_mode`. -/
theorem C4_wrong_mode_ff (b1 : Nat) (rest : List Nat) (s : DriverState)
    (cmd : Cmd) (retry : Int) (behs : Nat → Beh) (dr : Bool)
    (hcmd : cmd.isInfo = false)
    (hb : behs 0 = ⟨true, .notified (5 :: 255 :: rest), dr⟩)
    (hhex : hexValid (encodeCmd cmd s.password_encoded) = true)
    (hb1 : b1 ≠ 255) :
    ((actionOrModeHandle (5 :: 255 :: rest) s).1.cmd_complete = true ∧
      (actionOrModeHandle (5 :: 255 :: rest) s).2 = none) ∧
    ((actionOrModeHandle (5 :: b1 :: rest) s).1.cmd_complete = false ∧
      (actionOrModeHandle (5 :: b1 :: rest) s).1.cmd_status =
        some ActionStatus.device_wrong_mode ∧
      (actionOrModeHandle (5 :: b1 :: rest) s).2 = none) ∧
    ((sendCommand cmd retry behs 0 s).retval = true ∧
      (sendCommand cmd retry behs 0 s).raised = none ∧
      (sendCommand cmd retry behs 0 s).attempts = 1) := by
  have hsucc : ∀ t : DriverState,
      (actionOrModeHandle (5 :: 255 :: rest) t).1.cmd_complete = true ∧
      (actionOrModeHandle (5 :: 255 :: rest) t).2 = none := by
    intro t
    simp [actionOrModeHandle, actionStatusOfNat]
  refine ⟨hsucc s, ?_, ?_⟩
  · simp [actionOrModeHandle, actionStatusOfNat, hb1]
  · have hs1 := hsucc { resetFlags s with device := true }
    have hkey : (resetFlags s).password_encoded = s.password_encoded := rfl
    rw [sendCommand.eq_def]
    simp only [hb, hkey]
    unfold runAttempt
    simp [hcmd, hhex, hs1.1, hs1.2]

/-- C4 (witness): a `turn_on`-style Action command receiving status 5 with
byte 1 = 0xFF succeeds in one attempt; byte 1 = 0 fails the attempt. -/
theorem C4_wrong_mode_ff_witness :
    ((actionOrModeHandle [5, 255]
        (mkSwitchbot "ff:ff" true 3 none)).1.cmd_complete = true ∧
      (actionOrModeHandle [5, 255] (mkSwitchbot "ff:ff" true 3 none)).2 =
        none) ∧
    ((actionOrModeHandle [5, 0]
        (mkSwitchbot "ff:ff" true 3 none)).1.cmd_complete = false ∧
      (actionOrModeHandle [5, 0]
          (mkSwitchbot "ff:ff" true 3 none)).1.cmd_status =
        some ActionStatus.device_wrong_mode ∧
      (actionOrModeHandle [5, 0] (mkSwitchbot "ff:ff" true 3 none)).2 =
        none) ∧
    ((sendCommand (.action "01") 3
        (fun _ => ⟨true, .notified [5, 255], false⟩) 0
        (mkSwitchbot "ff:ff" true 3 none)).retval = true ∧
      (sendCommand (.action "01") 3
        (fun _ => ⟨true, .notified [5, 255], false⟩) 0
        (mkSwitchbot "ff:ff" true 3 none)).raised = none ∧
      (sendCommand (.action "01") 3
        (fun _ => ⟨true, .notified [5, 255], false⟩) 0
        (mkSwitchbot "ff:ff" true 3 none)).attempts = 1) :=
  C4_wrong_mode_ff 0 [] (mkSwitchbot "ff:ff" true 3 none) (.action "01") 3
    (fun _ => ⟨true, .notified [5, 255], false⟩) false rfl rfl (by decide)
    (by decide)

/-- C5: the encoder produces the exact documented hex strings — `5701`
plus `""`/`01`/`02` unauthenticated, `5711` plus digest plus suffix when
authenticated; the digest is the CRC32 of the passphrase masked to 32
bits rendered `'%x'` (lowercase hex, no padding); an absent or empty
password selects the unauthenticated prefixes. -/
theorem C5_command_encoding (mac : String) (dm : Bool) (rc : Int)
    (key : String) (pw : List Nat) (hpw : pw ≠ []) :
    (mkSwitchbot mac dm rc none).password_encoded = none ∧
    (mkSwitchbot mac dm rc (some [])).password_encoded = none ∧
    (mkSwitchbot mac dm rc (some pw)).password_encoded =
      some (hexLower (Nat.land (crc32 pw) 0xffffffff)) ∧
    actionKey none key = "5701" ++ key ∧
    (∀ d : String, actionKey (some d) key = "5711" ++ d ++ key) ∧
    actionKey none "01" = "570101" ∧
    actionKey (some "deadbeef") "02" = "5711deadbeef02" := by
  refine ⟨rfl, rfl, ?_, rfl, fun d => rfl, by decide, by decide⟩
  cases pw with
  | nil => exact absurd rfl hpw
  | cons a t => rfl

/-- C5 (witness), with the two-byte passphrase `"pw"` (ASCII 112, 119). -/
theorem C5_command_encoding_witness :
    (mkSwitchbot "ff:ff" false 3 none).password_encoded = none ∧
    (mkSwitchbot "ff:ff" false 3 (some [])).password_encoded = none ∧
    (mkSwitchbot "ff:ff" false 3 (some [112, 119])).password_encoded =
      some (hexLower (Nat.land (crc32 [112, 119]) 0xffffffff)) ∧
    actionKey none "01" = "5701" ++ "01" ∧
    (∀ d : String, actionKey (some d) "01" = "5711" ++ d ++ "01") ∧
    actionKey none "01" = "570101" ∧
    actionKey (some "deadbeef") "02" = "5711deadbeef02" :=
  C5_command_encoding "ff:ff" false 3 "01" [112, 119] (by decide)

/-- C6: an Info notification with status `complete` writes battery
(byte 1), firmware (byte 2 over 10, one fractional digit), dual-mode
(byte 9 bit 0x10) and inverse-mode (byte 9 bit 0x01) into the device
state without raising; any decoded non-complete status leaves those
fields unchanged; and the documented synthetic frame (battery 77,
firmware byte 21, mode byte 0x11) yields battery 77, firmware "2.1",
dual-mode true, inverse-mode true through a full `get_settings` call. -/
theorem C6_info_decoding (b1 b2 d3 d4 d5 d6 d7 d8 b9 : Nat)
    (rest : List Nat) (s : DriverState) (b0 : Nat) (st : ActionStatus)
    (hst : actionStatusOfNat b0 = some st)
    (hne : st ≠ ActionStatus.complete) :
    ((infoHandle
        (1 :: b1 :: b2 :: d3 :: d4 :: d5 :: d6 :: d7 :: d8 :: b9 :: rest)
          s).2 = none ∧
      (infoHandle
        (1 :: b1 :: b2 :: d3 :: d4 :: d5 :: d6 :: d7 :: d8 :: b9 :: rest)
          s).1.cmd_complete = true ∧
      (infoHandle
        (1 :: b1 :: b2 :: d3 :: d4 :: d5 :: d6 :: d7 :: d8 :: b9 :: rest)
          s).1.battery_percent = some b1 ∧
      (infoHandle
        (1 :: b1 :: b2 :: d3 :: d4 :: d5 :: d6 :: d7 :: d8 :: b9 :: rest)
          s).1.fw_ver = some (fwFormat b2) ∧
      (infoHandle
        (1 :: b1 :: b2 :: d3 :: d4 :: d5 :: d6 :: d7 :: d8 :: b9 :: rest)
          s).1.dual_mode = (Nat.land b9 16 != 0) ∧
      (infoHandle
        (1 :: b1 :: b2 :: d3 :: d4 :: d5 :: d6 :: d7 :: d8 :: b9 :: rest)
          s).1.inverse_mode = (Nat.land b9 1 != 0)) ∧
    sameInfoFields (infoHandle (b0 :: rest) s).1 s ∧
    ((get_settings
        (fun _ => ⟨true, .notified [1, 77, 21, 0, 0, 0, 0, 0, 0, 17], false⟩)
        (mkSwitchbot "ff:ff" false 3 none)).retval = true ∧
      get_battery (get_settings
        (fun _ => ⟨true, .notified [1, 77, 21, 0, 0, 0, 0, 0, 0, 17], false⟩)
        (mkSwitchbot "ff:ff" false 3 none)).state = some 77 ∧
      get_fw_ver (get_settings
        (fun _ => ⟨true, .notified [1, 77, 21, 0, 0, 0, 0, 0, 0, 17], false⟩)
        (mkSwitchbot "ff:ff" false 3 none)).state = some "2.1" ∧
      is_dual_mode (get_settings
        (fun _ => ⟨true, .notified [1, 77, 21, 0, 0, 0, 0, 0, 0, 17], false⟩)
        (mkSwitchbot "ff:ff" false 3 none)).state = true ∧
      is_inverse_mode (get_settings
        (fun _ => ⟨true, .notified [1, 77, 21, 0, 0, 0, 0, 0, 0, 17], false⟩)
        (mkSwitchbot "ff:ff" false 3 none)).state = true) := by
  refine ⟨?_, ?_, ?_⟩
  · simp [infoHandle, actionStatusOfNat]
  · unfold infoHandle
    simp only [List.get?]
    rw [hst]
    simp [hne, sameInfoFields]
  · unfold get_settings
    rw [sendCommand.eq_def]
    simp only []
    refine ⟨by decide, by decide, by decide, by decide, by decide⟩

/-- C6 (witness), with a busy-status frame for the unchanged branch. -/
theorem C6_info_decoding_witness :
    ((infoHandle [1, 90, 45, 0, 0, 0, 0, 0, 0, 16]
        (mkSwitchbot "ff:ff" false 3 none)).2 = none ∧
      (infoHandle [1, 90, 45, 0, 0, 0, 0, 0, 0, 16]
        (mkSwitchbot "ff:ff" false 3 none)).1.cmd_complete = true ∧
      (infoHandle [1, 90, 45, 0, 0, 0, 0, 0, 0, 16]
        (mkSwitchbot "ff:ff" false 3 none)).1.battery_percent = some 90 ∧
      (infoHandle [1, 90, 45, 0, 0, 0, 0, 0, 0, 16]
        (mkSwitchbot "ff:ff" false 3 none)).1.fw_ver = some (fwFormat 45) ∧
      (infoHandle [1, 90, 45, 0, 0, 0, 0, 0, 0, 16]
        (mkSwitchbot "ff:ff" false 3 none)).1.dual_mode =
          (Nat.land 16 16 != 0) ∧
      (infoHandle [1, 90, 45, 0, 0, 0, 0, 0, 0, 16]
        (mkSwitchbot "ff:ff" false 3 none)).1.inverse_mode =
          (Nat.land 16 1 != 0)) ∧
    sameInfoFields (infoHandle [3]
      (mkSwitchbot "ff:ff" false 3 none)).1
      (mkSwitchbot "ff:ff" false 3 none) ∧
    ((get_settings
        (fun _ => ⟨true, .notified [1, 77, 21, 0, 0, 0, 0, 0, 0, 17], false⟩)
        (mkSwitchbot "ff:ff" false 3 none)).retval = true ∧
      get_battery (get_settings
        (fun _ => ⟨true, .notified [1, 77, 21, 0, 0, 0, 0, 0, 0, 17], false⟩)
        (mkSwitchbot "ff:ff" false 3 none)).state = some 77 ∧
      get_fw_ver (get_settings
        (fun _ => ⟨true, .notified [1, 77, 21, 0, 0, 0, 0, 0, 0, 17], false⟩)
        (mkSwitchbot "ff:ff" false 3 none)).state = some "2.1" ∧
      is_dual_mode (get_settings
        (fun _ => ⟨true, .notified [1, 77, 21, 0, 0, 0, 0, 0, 0, 17], false⟩)
        (mkSwitchbot "ff:ff" false 3 none)).state = true ∧
      is_inverse_mode (get_settings
        (fun _ => ⟨true, .notified [1, 77, 21, 0, 0, 0, 0, 0, 0, 17], false⟩)
        (mkSwitchbot "ff:ff" false 3 none)).state = true) :=
  C6_info_decoding 90 45 0 0 0 0 0 0 16 []
    (mkSwitchbot "ff:ff" false 3 none) 3 ActionStatus.device_busy rfl
    (by decide)

/-- C7: `turn_on`/`turn_off` on a non-dual-mode state and `press` on a
dual-mode state return `False` immediately, with no transport events, no
attempts, and the state untouched — the guard runs before any connect or
write. -/
theorem C7_mode_guards (behs : Nat → Beh) (s : DriverState) :
    (s.dual_mode = false →
      turn_on behs s = guardFail s ∧ turn_off behs s = guardFail s) ∧
    (s.dual_mode = true → press behs s = guardFail s) ∧
    (guardFail s).retval = false ∧ (guardFail s).trace = [] ∧
    (guardFail s).attempts = 0 ∧ (guardFail s).state = s := by
  refine ⟨?_, ?_, rfl, rfl, rfl, rfl⟩
  · intro h
    constructor <;> simp [turn_on, turn_off, h]
  · intro h
    simp [press, h]

/-- C7 (witness), on freshly constructed non-dual and dual devices. -/
theorem C7_mode_guards_witness :
    (turn_on (fun _ => ⟨true, IoBeh.timeout, false⟩)
        (mkSwitchbot "ff:ff" false 3 none) =
      guardFail (mkSwitchbot "ff:ff" false 3 none) ∧
     turn_off (fun _ => ⟨true, IoBeh.timeout, false⟩)
        (mkSwitchbot "ff:ff" false 3 none) =
      guardFail (mkSwitchbot "ff:ff" false 3 none)) ∧
    press (fun _ => ⟨true, IoBeh.timeout, false⟩)
        (mkSwitchbot "ff:ff" true 3 none) =
      guardFail (mkSwitchbot "ff:ff" true 3 none) ∧
    (guardFail (mkSwitchbot "ff:ff" false 3 none)).retval = false ∧
    (guardFail (mkSwitchbot "ff:ff" false 3 none)).trace = [] ∧
    (guardFail (mkSwitchbot "ff:ff" false 3 none)).attempts = 0 ∧
    (guardFail (mkSwitchbot "ff:ff" false 3 none)).state =
      mkSwitchbot "ff:ff" false 3 none :=
  ⟨(C7_mode_guards (fun _ => ⟨true, IoBeh.timeout, false⟩)
      (mkSwitchbot "ff:ff" false 3 none)).1 rfl,
   (C7_mode_guards (fun _ => ⟨true, IoBeh.timeout, false⟩)
      (mkSwitchbot "ff:ff" true 3 none)).2.1 rfl,
   (C7_mode_guards (fun _ => ⟨true, IoBeh.timeout, false⟩)
      (mkSwitchbot "ff:ff" false 3 none)).2.2⟩

/-- C8: every retry cycle — and hence every public operation started with
the handle clear — ends with the stored device handle back to `None`,
whether the attempts succeeded, failed, raised, or the `disconnect()`
call itself raised (the transport behaviour, including
`disconnectRaises`, is universally quantified). -/
theorem C8_session_closed (cmd : Cmd) (retry : Int) (behs : Nat → Beh)
    (k : Nat) (s s2 : DriverState) (op : PublicOp) (behs2 : Nat → Beh)
    (hdev : s2.device = false) :
    (sendCommand cmd retry behs k s).state.device = false ∧
    (runOp op behs2 s2).state.device = false := by
  refine ⟨(sendCommand_frame cmd retry.toNat retry rfl behs k s).1, ?_⟩
  cases op with
  | turnOn =>
    show (turn_on behs2 s2).state.device = false
    unfold turn_on
    split
    · exact hdev
    · exact (sendCommand_frame (.action "01") s2.retry_count.toNat
        s2.retry_count rfl behs2 0 s2).1
  | turnOff =>
    show (turn_off behs2 s2).state.device = false
    unfold turn_off
    split
    · exact hdev
    · exact (sendCommand_frame (.action "02") s2.retry_count.toNat
        s2.retry_count rfl behs2 0 s2).1
  | press =>
    show (press behs2 s2).state.device = false
    unfold press
    split
    · exact hdev
    · exact (sendCommand_frame (.action "") s2.retry_count.toNat
        s2.retry_count rfl behs2 0 s2).1
  | setMode d i =>
    exact (sendCommand_frame (.mode d i) s2.retry_count.toNat
      s2.retry_count rfl behs2 0 s2).1
  | getSettings =>
    exact (sendCommand_frame (.info "") s2.retry_count.toNat
      s2.retry_count rfl behs2 0 s2).1

/-- C8 (witness), with a transport whose `disconnect()` raises. -/
theorem C8_session_closed_witness :
    (sendCommand (.action "01") 3 (fun _ => ⟨true, IoBeh.timeout, true⟩) 0
      (mkSwitchbot "ff:ff" true 3 none)).state.device = false ∧
    (runOp PublicOp.getSettings (fun _ => ⟨false, IoBeh.timeout, true⟩)
      (mkSwitchbot "ff:ff" true 3 none)).state.device = false :=
  C8_session_closed (.action "01") 3 (fun _ => ⟨true, IoBeh.timeout, true⟩)
    0 (mkSwitchbot "ff:ff" true 3 none) (mkSwitchbot "ff:ff" true 3 none)
    PublicOp.getSettings (fun _ => ⟨false, IoBeh.timeout, true⟩) rfl

/-- C9: `set_mode` — with any arguments, transport behaviour, and outcome
— never changes the stored dual-mode and inverse-mode flags (they are
written only by a complete Info notification), so after any `set_mode`
on a device whose stored flag is false, `turn_on` still fails its guard
without touching the transport. -/
theorem C9_set_mode_frame (d i : Bool) (behs behs2 : Nat → Beh)
    (s : DriverState) :
    is_dual_mode (set_mode d i behs s).state = is_dual_mode s ∧
    is_inverse_mode (set_mode d i behs s).state = is_inverse_mode s ∧
    (s.dual_mode = false →
      turn_on behs2 (set_mode d i behs s).state =
        guardFail (set_mode d i behs s).state ∧
      (turn_on behs2 (set_mode d i behs s).state).retval = false ∧
      (turn_on behs2 (set_mode d i behs s).state).trace = []) := by
  obtain ⟨_, _, hsame, _⟩ := sendCommand_frame (.mode d i)
    s.retry_count.toNat s.retry_count rfl behs 0 s
  obtain ⟨_, _, hdual, hinv⟩ := hsame rfl
  refine ⟨hdual, hinv, ?_⟩
  intro h
  have hguard : (set_mode d i behs s).state.dual_mode = false := by
    rw [show (set_mode d i behs s).state.dual_mode = s.dual_mode from hdual,
      h]
  constructor
  · simp [turn_on, hguard]
  constructor <;> simp [turn_on, hguard, guardFail]

/-- C9 (witness): a `set_mode True` that succeeds (complete notification)
on a device constructed with dual-mode false still leaves `turn_on`
failing the guard. -/
theorem C9_set_mode_frame_witness :
    (set_mode true false (fun _ => ⟨true, .notified [1], false⟩)
      (mkSwitchbot "ff:ff" false 3 none)).retval = true ∧
    (is_dual_mode (set_mode true false
        (fun _ => ⟨true, .notified [1], false⟩)
        (mkSwitchbot "ff:ff" false 3 none)).state =
      is_dual_mode (mkSwitchbot "ff:ff" false 3 none) ∧
    is_inverse_mode (set_mode true false
        (fun _ => ⟨true, .notified [1], false⟩)
        (mkSwitchbot "ff:ff" false 3 none)).state =
      is_inverse_mode (mkSwitchbot "ff:ff" false 3 none) ∧
    ((mkSwitchbot "ff:ff" false 3 none).dual_mode = false →
      turn_on (fun _ => ⟨true, IoBeh.timeout, false⟩)
          (set_mode true false (fun _ => ⟨true, .notified [1], false⟩)
            (mkSwitchbot "ff:ff" false 3 none)).state =
        guardFail (set_mode true false
          (fun _ => ⟨true, .notified [1], false⟩)
          (mkSwitchbot "ff:ff" false 3 none)).state ∧
      (turn_on (fun _ => ⟨true, IoBeh.timeout, false⟩)
        (set_mode true false (fun _ => ⟨true, .notified [1], false⟩)
          (mkSwitchbot "ff:ff" false 3 none)).state).retval = false ∧
      (turn_on (fun _ => ⟨true, IoBeh.timeout, false⟩)
        (set_mode true false (fun _ => ⟨true, .notified [1], false⟩)
          (mkSwitchbot "ff:ff" false 3 none)).state).trace = [])) :=
  ⟨by unfold set_mode
      rw [sendCommand.eq_def]
      decide,
   C9_set_mode_frame true false (fun _ => ⟨true, .notified [1], false⟩)
     (fun _ => ⟨true, IoBeh.timeout, false⟩)
     (mkSwitchbot "ff:ff" false 3 none)⟩

/-- C10: starting from construction, as long as no `get_settings` call
has succeeded, `get_battery()` and `get_fw_ver()` return `None` (despite
their `int`/`str` annotations) and `is_inverse_mode()` returns false,
across any sequence of public operations with any transport behaviours
(the accessors are total field reads and cannot raise). -/
theorem C10_accessors_before_info (mac : String) (dm : Bool) (rc : Int)
    (pw : Option (List Nat)) (ivs : List Invocation)
    (h : noSuccessfulInfoRun ivs (mkSwitchbot mac dm rc pw)) :
    get_battery (runOps ivs (mkSwitchbot mac dm rc pw)) = none ∧
    get_fw_ver (runOps ivs (mkSwitchbot mac dm rc pw)) = none ∧
    is_inverse_mode (runOps ivs (mkSwitchbot mac dm rc pw)) = false := by
  have main : ∀ (l : List Invocation) (t : DriverState),
      t.battery_percent = none → t.fw_ver = none → t.inverse_mode = false →
      noSuccessfulInfoRun l t →
      (runOps l t).battery_percent = none ∧ (runOps l t).fw_ver = none ∧
      (runOps l t).inverse_mode = false := by
    intro l
    induction l with
    | nil =>
      intro t h1 h2 h3 _
      exact ⟨h1, h2, h3⟩
    | cons iv rest ih =>
      intro t h1 h2 h3 hrun
      obtain ⟨hhead, htail⟩ := hrun
      obtain ⟨p1, p2, _, p4⟩ := runOp_preserves_info iv.op iv.behs t hhead
      exact ih (runOp iv.op iv.behs t).state (p1.trans h1) (p2.trans h2)
        (p4.trans h3) htail
  exact main ivs (mkSwitchbot mac dm rc pw) rfl rfl rfl h

/-- C10 (witness), after one failed (guarded) `press` call. -/
theorem C10_accessors_before_info_witness :
    get_battery (runOps
      [⟨PublicOp.press, fun _ => ⟨true, IoBeh.timeout, false⟩⟩]
      (mkSwitchbot "ff:ff" true 3 none)) = none ∧
    get_fw_ver (runOps
      [⟨PublicOp.press, fun _ => ⟨true, IoBeh.timeout, false⟩⟩]
      (mkSwitchbot "ff:ff" true 3 none)) = none ∧
    is_inverse_mode (runOps
      [⟨PublicOp.press, fun _ => ⟨true, IoBeh.timeout, false⟩⟩]
      (mkSwitchbot "ff:ff" true 3 none)) = false :=
  C10_accessors_before_info "ff:ff" true 3 none
    [⟨PublicOp.press, fun _ => ⟨true, IoBeh.timeout, false⟩⟩]
    (by refine ⟨?_, trivial⟩
        intro hop
        cases hop)

end Switchbot
